import Mathlib

/-!
Verification of the dataset acquisition logic of the oonn repository.

The development shallowly embeds the Python classes of
src/oonn/prep/data.py (class Dataset), src/oonn/utils/counter.py
(class Counter) and src/oonn/utils/execution.py (classes Task, Process).
Filesystem state is an explicit set of existing paths, external effects
(urlretrieve, zipfile, tarfile, makedirs, rmtree, marker creation) are
recorded in an explicit call trace, and Python exceptions are modelled
by an explicit error type threaded through the state.
-/

/-- Model of a Python exception raised by the code under analysis. -/
inductive PyError where
  | typeError (msg : String)
  | attributeError (msg : String)
  | osError (msg : String)
  deriving Repr, DecidableEq

/-- One observable external effect performed by the code: a Transport
Adapter fetch (urllib.request.urlretrieve), an Archive Adapter call
(zipfile / tarfile extractall), a directory creation (os.makedirs), a
directory removal (shutil.rmtree) or a marker-file creation (open + close). -/
inductive AdapterCall where
  | transportFetch (url : String) (dest : String)
  | archiveZip (path : String) (folder : String)
  | archiveTar (path : String) (folder : String)
  | makedirs (path : String)
  | rmtree (path : String)
  | markerWrite (path : String)
  deriving Repr, DecidableEq

/-- True for the Transport Adapter call. -/
def AdapterCall.isTransport : AdapterCall → Bool
  | .transportFetch _ _ => true
  | _ => false

/-- True for the Archive Adapter calls (zip or gzip-tar extraction). -/
def AdapterCall.isArchive : AdapterCall → Bool
  | .archiveZip _ _ => true
  | .archiveTar _ _ => true
  | _ => false

/-- The filesystem is modelled as the finite set of paths that exist,
kept as a list of strings. -/
structure FS where
  paths : List String
  deriving Repr, DecidableEq

/-- Path existence test, modelling os.path.exists on a string path
(total, never raises). -/
def FS.existsPath (fs : FS) (p : String) : Bool :=
  fs.paths.contains p

/-- Creating a path, modelling a successful write or makedirs. -/
def FS.add (fs : FS) (p : String) : FS :=
  ⟨p :: fs.paths⟩

/-- Removing a directory tree, modelling shutil.rmtree: every path having
the removed root as a prefix disappears. -/
def FS.removeUnder (fs : FS) (root : String) : FS :=
  ⟨fs.paths.filter (fun p => ¬ root.isPrefixOf p)⟩

/-- The empty filesystem: no folder exists. -/
def fsEmpty : FS := ⟨[]⟩

/-- Model of os.path.join on two string arguments (posixpath.join): the
second component replaces the first when absolute, otherwise it is
appended with a separator inserted unless the first part is empty or
already ends with the separator. -/
def ospJoin (a b : String) : String :=
  if b.startsWith "/" then b
  else if a = "" ∨ a.endsWith "/" then a ++ b
  else a ++ "/" ++ b

/-- Model of the call os.path.join(download_folder, [subfolder, filename])
at line 176 of data.py: CPython applies os.fspath to the second argument,
and os.fspath of a list raises TypeError before any path is built, for
every value of the arguments. -/
def ospJoinListArg (a : String) (p : List String) : Except PyError String :=
  .error (.typeError "join: expected str, bytes or os.PathLike object, not list")

/-- The suffix of a string after its last "/" character, the whole string
when none occurs: model of s[s.rfind(chr0x2f) + 1 :] in Python. -/
def afterLastSlash (s : String) : String :=
  match (s.splitOn "/").reverse with
  | [] => s
  | x :: _ => x

/-- The Dataset descriptor: the instance attributes set by
Dataset.__init__ in data.py (lines 118 to 135), with the leading
underscore of each Python attribute name dropped. -/
structure Dataset where
  source_url : String
  download_url : String
  train_data_filename : String
  validate_data_filename : String
  test_data_filename : String
  train_labels : String
  validate_labels : String
  test_labels : String
  train_subfolder : String
  validate_subfolder : String
  test_subfolder : String
  train_data_present : Bool
  validate_data_present : Bool
  test_data_present : Bool
  extract : Bool
  refresh_everytime_used : Bool
  downloaded : Bool
  extracted : Bool
  deriving Repr, DecidableEq

/-- The class attribute Dataset.extract_marker (line 28 of data.py). -/
def extract_marker : String := "_extracted"

/-- Dataset.__init__ (lines 29 to 135 of data.py): stores every argument
in the corresponding attribute, seeds downloaded from already_downloaded
and sets extracted to false. The Python constructor performs no
validation and cannot fail. Default argument values follow the source. -/
def Dataset.init (source_url : String) (download_url : String := "./data/")
    (train_data_filename : String := "") (validate_data_filename : String := "")
    (test_data_filename : String := "")
    (train_labels_filename : String := "") (validate_labels_filename : String := "")
    (test_labels_filename : String := "")
    (train_subfolder : String := "train") (validate_subfolder : String := "validate")
    (test_subfolder : String := "test")
    (train_data_present : Bool := true) (validate_data_present : Bool := true)
    (test_data_present : Bool := true)
    (extract : Bool := true) (refresh_everytime_used : Bool := false)
    (already_downloaded : Bool := false) : Dataset :=
  { source_url := source_url
    download_url := download_url
    train_data_filename := train_data_filename
    validate_data_filename := validate_data_filename
    test_data_filename := test_data_filename
    train_labels := train_labels_filename
    validate_labels := validate_labels_filename
    test_labels := test_labels_filename
    train_subfolder := train_subfolder
    validate_subfolder := validate_subfolder
    test_subfolder := test_subfolder
    train_data_present := train_data_present
    validate_data_present := validate_data_present
    test_data_present := test_data_present
    extract := extract
    refresh_everytime_used := refresh_everytime_used
    downloaded := already_downloaded
    extracted := false }

/-- Dataset._check_if_downloaded (lines 159 to 178 of data.py). The body
evaluates os.path.exists(os.path.join(download_folder, [subfolder, filename])):
the join is applied to a list second argument, which raises TypeError, so
the existence test is never reached and the method raises on every call. -/
def Dataset.check_if_downloaded (d : Dataset) (fs : FS)
    (source_url download_folder subfolder filename : String) :
    Except PyError Bool :=
  match ospJoinListArg download_folder [subfolder, filename] with
  | .error e => .error e
  | .ok p => .ok (fs.existsPath p)

/-- Dataset.check_if_extracted (lines 180 to 195 of data.py): returns
whether the marker file "." ++ filename ++ extract_marker exists in the
download folder. Built only from os.path.exists on a string path, so it
is total and never raises. -/
def Dataset.check_if_extracted (d : Dataset) (fs : FS)
    (source_url download_folder filename : String) : Bool :=
  fs.existsPath (ospJoin download_folder ("." ++ filename ++ extract_marker))

/-- Dataset._download (lines 198 to 235 of data.py). Creates the download
folder when missing, then: under the verbose branch it fetches the URL via
urlretrieve with a progress hook; under the non-verbose branch the source
guards the urlretrieve call by a second "if verbose:" test, which is false
there, so no fetch happens at all. Returns the updated filesystem and the
trace of external calls. -/
def Dataset.download (d : Dataset) (fs : FS)
    (source_url download_folder filename : String) (verbose : Bool) :
    FS × List AdapterCall :=
  let dwnld_path := ospJoin download_folder filename
  let mk : FS × List AdapterCall :=
    if fs.existsPath download_folder then (fs, [])
    else (fs.add download_folder, [AdapterCall.makedirs download_folder])
  let fs1 := mk.1
  let calls1 := mk.2
  let url_req := if filename ≠ "" then ospJoin source_url filename else source_url
  if verbose then
    (fs1.add dwnld_path, calls1 ++ [AdapterCall.transportFetch url_req dwnld_path])
  else
    if verbose then
      (fs1.add dwnld_path, calls1 ++ [AdapterCall.transportFetch url_req dwnld_path])
    else
      (fs1, calls1)

/-- Dataset._extract (lines 237 to 275 of data.py; named extract_step here
because the attribute self._extract of the descriptor already carries the
name). For a path ending in ".zip" one zipfile extraction runs; for a path
ending in ".tar.gz" or ".tgz" one tarfile extraction runs; otherwise no
Archive Adapter call is made. In every case the empty marker file
"." ++ basename ++ extract_marker is then created in the extract folder. -/
def Dataset.extract_step (d : Dataset) (fs : FS)
    (extract_filepath extract_folder : String) (verbose : Bool) :
    FS × List AdapterCall :=
  let arch : List AdapterCall :=
    if extract_filepath.endsWith ".zip" then
      [AdapterCall.archiveZip extract_filepath extract_folder]
    else if extract_filepath.endsWith ".tar.gz" ∨ extract_filepath.endsWith ".tgz" then
      [AdapterCall.archiveTar extract_filepath extract_folder]
    else []
  let marker_filename :=
    ospJoin extract_folder ("." ++ afterLastSlash extract_filepath ++ extract_marker)
  (fs.add marker_filename, arch ++ [AdapterCall.markerWrite marker_filename])

/-- The call self._check_if_downloaded(source_url, download_folder, filename)
at line 300 of data.py passes three arguments to a method whose signature
(line 159) requires four besides self, so Python raises TypeError at the
call site before the method body runs. -/
def check_if_downloaded_three_args : Except PyError Bool :=
  .error (.typeError
    "check_if_downloaded missing 1 required positional argument: filename")

/-- The call self._check_if_extracted(source_url, download_folder, filename)
at line 303 of data.py: the class defines check_if_extracted without the
leading underscore, so the attribute lookup raises AttributeError. -/
def check_if_extracted_missing_attr : Except PyError Bool :=
  .error (.attributeError "Dataset object has no attribute _check_if_extracted")

/-- Result of a stateful step of the code: updated filesystem, trace of
external calls made before returning or raising, and the produced value or
the raised exception. -/
structure StepResult (α : Type) where
  fs : FS
  calls : List AdapterCall
  val : Except PyError α
  deriving Repr

/-- Dataset._download_and_extract (lines 277 to 307 of data.py). The first
statement of the body calls _check_if_downloaded with a missing argument,
which raises TypeError, so every invocation raises before performing any
external call. The remaining lines of the source body (download when the
check is false, then the misnamed extracted check and the extraction) are
embedded underneath the first error for reference; they are unreachable. -/
def Dataset.download_and_extract (d : Dataset) (fs : FS)
    (source_url download_folder filename : String) (verbose : Bool) :
    StepResult Bool :=
  match check_if_downloaded_three_args with
  | .error e => { fs := fs, calls := [], val := .error e }
  | .ok already =>
    let st1 : FS × List AdapterCall × Bool :=
      if ¬ already then
        let r := d.download fs source_url download_folder filename verbose
        (r.1, r.2, true)
      else (fs, [], false)
    match check_if_extracted_missing_attr with
    | .error e => { fs := st1.1, calls := st1.2.1, val := .error e }
    | .ok done =>
      if ¬ done then
        let r := d.extract_step st1.1 (ospJoin download_folder filename)
          download_folder verbose
        { fs := r.1, calls := st1.2.1 ++ r.2, val := .ok true }
      else
        { fs := st1.1, calls := st1.2.1, val := .ok st1.2.2 }

/-- The rows of the loop of download_extract_if_needed (lines 336 to 342 of
data.py): zip(fnames, labels, subfolders, data_flags), in the fixed order
train, validate, test. Each row is (file_name, label, subfolder, data_flag). -/
def Dataset.splitRows (d : Dataset) : List (String × String × String × Bool) :=
  [ (d.train_data_filename, d.train_labels, d.train_subfolder, d.train_data_present),
    (d.validate_data_filename, d.validate_labels, d.validate_subfolder, d.validate_data_present),
    (d.test_data_filename, d.test_labels, d.test_subfolder, d.test_data_present) ]

/-- One iteration of the loop body of download_extract_if_needed (lines 342
to 353 of data.py), given the download_folder value left by the previous
iteration. It recomputes download_folder when the subfolder is nonempty;
when data_flag holds it queries _check_if_downloaded (which raises) and on
a false answer would download and extract data and labels; finally, on
every iteration and outside the data_flag guard, line 353 calls
_download_and_extract with the folder and source arguments swapped (which
raises at the call site by arity). Returns the new download_folder besides
the step result. -/
def Dataset.splitIteration (d : Dataset) (fs : FS)
    (download_folder : String) (row : String × String × String × Bool)
    (verbose : Bool) : StepResult String :=
  let file_name := row.1
  let label := row.2.1
  let subfolder := row.2.2.1
  let data_flag := row.2.2.2
  let download_folder :=
    if subfolder ≠ "" then ospJoin d.download_url subfolder else download_folder
  let guarded : StepResult Unit :=
    if data_flag then
      match d.check_if_downloaded fs d.source_url d.download_url subfolder file_name with
      | .error e => { fs := fs, calls := [], val := .error e }
      | .ok b =>
        if ¬ b then
          let r1 := d.download_and_extract fs d.source_url download_folder file_name true
          match r1.val with
          | .error e => { fs := r1.fs, calls := r1.calls, val := .error e }
          | .ok _ =>
            if label ≠ "" then
              let r2 := d.download_and_extract r1.fs d.source_url download_folder label true
              { fs := r2.fs, calls := r1.calls ++ r2.calls,
                val := (r2.val.map fun _ => ()) }
            else { fs := r1.fs, calls := r1.calls, val := .ok () }
        else { fs := fs, calls := [], val := .ok () }
    else { fs := fs, calls := [], val := .ok () }
  match guarded.val with
  | .error e => { fs := guarded.fs, calls := guarded.calls, val := .error e }
  | .ok _ =>
    let r3 := d.download_and_extract guarded.fs download_folder d.source_url file_name verbose
    { fs := r3.fs, calls := guarded.calls ++ r3.calls,
      val := (r3.val.map fun _ => download_folder) }

/-- The loop of download_extract_if_needed over the split rows, threading
download_folder (initialized to the empty string at line 341), the
filesystem and the call trace, and stopping at the first raised error. -/
def Dataset.splitLoop (d : Dataset) (fs : FS) (download_folder : String)
    (rows : List (String × String × String × Bool)) (verbose : Bool) :
    StepResult Unit :=
  match rows with
  | [] => { fs := fs, calls := [], val := .ok () }
  | row :: rest =>
    let r := d.splitIteration fs download_folder row verbose
    match r.val with
    | .error e => { fs := r.fs, calls := r.calls, val := .error e }
    | .ok df =>
      let rr := d.splitLoop r.fs df rest verbose
      { fs := rr.fs, calls := r.calls ++ rr.calls, val := rr.val }

/-- Result of a call of download_extract_if_needed or refresh: the
descriptor after the call (its mutable flags possibly updated), the
filesystem, the trace of external calls, and the raised exception when the
call did not return normally. The Python method returns None on normal
return, so no further return value is modelled. -/
structure EngineResult where
  ds : Dataset
  fs : FS
  calls : List AdapterCall
  err : Option PyError
  deriving Repr

/-- Dataset.download_extract_if_needed (lines 315 to 354 of data.py): when
the downloaded flag is false it runs the loop over the three split rows
with download_folder initialized to the empty string; a raised exception
propagates and leaves the flags unchanged. When the loop completes, or when
the downloaded flag was already true, the final statement (line 354, outside
the conditional) sets downloaded to true. No statement of the method writes
the extracted flag. -/
def Dataset.download_extract_if_needed (d : Dataset) (fs : FS)
    (verbose : Bool) : EngineResult :=
  if ¬ d.downloaded then
    let r := d.splitLoop fs "" d.splitRows verbose
    match r.val with
    | .error e => { ds := d, fs := r.fs, calls := r.calls, err := some e }
    | .ok _ =>
      { ds := { d with downloaded := true }, fs := r.fs, calls := r.calls, err := none }
  else
    { ds := { d with downloaded := true }, fs := fs, calls := [], err := none }

/-- Dataset._clean_downloaded_folders (lines 309 to 313 of data.py):
shutil.rmtree on the download root. The removal can fail at the operating
system level (for example permission denied); the rmOk argument selects
the outcome of that external operation. On failure OSError is raised and
nothing is removed. -/
def Dataset.clean_downloaded_folders (d : Dataset) (fs : FS) (rmOk : Bool) :
    StepResult Unit :=
  if rmOk then
    { fs := fs.removeUnder d.download_url,
      calls := [AdapterCall.rmtree d.download_url], val := .ok () }
  else
    { fs := fs, calls := [], val := .error (.osError "rmtree: permission denied") }

/-- Dataset.refresh (lines 357 to 367 of data.py): first
_clean_downloaded_folders (whose failure propagates before any flag is
written), then the assignment of false to the downloaded flag, then the
delegation to download_extract_if_needed. No statement of refresh writes
the extracted flag. -/
def Dataset.refresh (d : Dataset) (fs : FS) (rmOk : Bool) (verbose : Bool) :
    EngineResult :=
  let c := d.clean_downloaded_folders fs rmOk
  match c.val with
  | .error e => { ds := d, fs := c.fs, calls := c.calls, err := some e }
  | .ok _ =>
    let d1 := { d with downloaded := false }
    let r := d1.download_extract_if_needed c.fs verbose
    { ds := r.ds, fs := r.fs, calls := c.calls ++ r.calls, err := r.err }

/-- Counter (counter.py): a count initialized to zero. -/
structure Counter where
  count : Nat
  deriving Repr, DecidableEq

/-- Counter.__init__ (lines 15 to 20 of counter.py). -/
def Counter.init : Counter := ⟨0⟩

/-- Counter.next (lines 22 to 28 of counter.py): increments the count and
returns the incremented value, together with the updated counter. -/
def Counter.next (c : Counter) : Counter × Nat :=
  let c1 : Counter := ⟨c.count + 1⟩
  (c1, c1.count)

/-- Counter.current (lines 29 to 33 of counter.py). -/
def Counter.current (c : Counter) : Nat := c.count

namespace oonn

/-- Task (execution.py, lines 20 to 111): a task id and a human readable
name. -/
structure Task where
  task_id : Nat
  task_name : String
  deriving Repr, DecidableEq

/-- Task.set_id (lines 36 to 52 of execution.py). -/
def Task.set_id (t : Task) (task_id : Nat) : Task :=
  { t with task_id := task_id }

/-- Task.get_id (lines 53 to 66 of execution.py). -/
def Task.get_id (t : Task) : Nat := t.task_id

/-- Process state (execution.py, lines 113 to 137): the task dictionary
keyed by task id (modelled as an association list with the most recent
binding first), the id counter, the name and the continue-on-error flag
set by Process.__init__. -/
structure Process where
  tasks : List (Nat × Task)
  task_id_counter : Counter
  task_name : String
  continue_with_errors : Bool
  deriving Repr, DecidableEq

/-- Process.__init__ (lines 122 to 136 of execution.py). -/
def Process.init : Process :=
  { tasks := [], task_id_counter := Counter.init,
    task_name := "Process", continue_with_errors := true }

/-- Argument passed to Process.add_task: either an instance of Task (or of
a subclass) or any other Python object, for which isinstance(task, Task)
is false. -/
inductive AddTaskArg where
  | task (t : Task)
  | notATask
  deriving Repr, DecidableEq

/-- Process.add_task (lines 138 to 158 of execution.py): when the argument
is a Task instance, draw the next id from the counter, set it on the task,
store the task in the dictionary under that id and return the id;
otherwise leave the state unchanged and return the initial local value 0. -/
def Process.add_task (p : Process) (arg : AddTaskArg) : Process × Nat :=
  match arg with
  | .task t =>
    let n := p.task_id_counter.next
    let tid := n.2
    let t1 := t.set_id tid
    ({ p with tasks := (tid, t1) :: p.tasks, task_id_counter := n.1 }, tid)
  | .notATask => (p, 0)

/-- Invariant of a Process reachable by Process.init and add_task calls:
every id stored in the task dictionary is positive and at most the counter
value (ids are handed out as successive counter values). -/
def Process.wf (p : Process) : Prop :=
  ∀ pr ∈ p.tasks, 0 < pr.1 ∧ pr.1 ≤ p.task_id_counter.count

end oonn

/-- Helper: _check_if_downloaded raises on every call, since the list
argument of the join raises TypeError before any filesystem access. -/
theorem check_if_downloaded_raises (d : Dataset) (fs : FS)
    (a b c e : String) :
    d.check_if_downloaded fs a b c e =
      .error (.typeError "join: expected str, bytes or os.PathLike object, not list") :=
  rfl

/-- Helper: _download_and_extract raises TypeError at its first statement
(arity mismatch of the _check_if_downloaded call), performing no external
call and leaving the filesystem unchanged. -/
theorem download_and_extract_raises (d : Dataset) (fs : FS)
    (a b c : String) (v : Bool) :
    d.download_and_extract fs a b c v =
      { fs := fs, calls := [],
        val := .error (.typeError
          "check_if_downloaded missing 1 required positional argument: filename") } :=
  rfl

/-- Helper: each iteration of the split loop raises before performing any
external call: with data_flag set, the four-argument _check_if_downloaded
call raises TypeError from the list join; without it, the unguarded line
353 call of _download_and_extract raises TypeError by arity. The
filesystem is unchanged and the call trace empty. -/
theorem splitIteration_raises (d : Dataset) (fs : FS) (df : String)
    (row : String × String × String × Bool) (v : Bool) :
    (d.splitIteration fs df row v).fs = fs ∧
    (d.splitIteration fs df row v).calls = [] ∧
    ∃ e, (d.splitIteration fs df row v).val = .error e := by
  obtain ⟨fn, lb, sf, flag⟩ := row
  cases flag <;>
    simp [Dataset.splitIteration, Dataset.check_if_downloaded, ospJoinListArg,
      download_and_extract_raises, Except.map]

/-- Helper: the split loop over a nonempty row list stops at the first
iteration with an error, no external call and an unchanged filesystem. -/
theorem splitLoop_cons_raises (d : Dataset) (fs : FS) (df : String)
    (row : String × String × String × Bool)
    (rest : List (String × String × String × Bool)) (v : Bool) :
    (d.splitLoop fs df (row :: rest) v).fs = fs ∧
    (d.splitLoop fs df (row :: rest) v).calls = [] ∧
    ∃ e, (d.splitLoop fs df (row :: rest) v).val = .error e := by
  obtain ⟨hfs, hc, e, hv⟩ := splitIteration_raises d fs df row v
  refine ⟨?_, ?_, e, ?_⟩ <;> simp [Dataset.splitLoop, hv, hfs, hc]

/-- Helper: with the downloaded flag false, download_extract_if_needed
raises at the first split: the descriptor and the filesystem are
unchanged and no external call is made. -/
theorem engine_not_downloaded (d : Dataset) (fs : FS) (v : Bool)
    (h : d.downloaded = false) :
    (d.download_extract_if_needed fs v).ds = d ∧
    (d.download_extract_if_needed fs v).fs = fs ∧
    (d.download_extract_if_needed fs v).calls = [] ∧
    (d.download_extract_if_needed fs v).err.isSome = true := by
  obtain ⟨hfs, hc, e, hv⟩ := splitLoop_cons_raises d fs ""
    (d.train_data_filename, d.train_labels, d.train_subfolder, d.train_data_present)
    [ (d.validate_data_filename, d.validate_labels, d.validate_subfolder,
        d.validate_data_present),
      (d.test_data_filename, d.test_labels, d.test_subfolder, d.test_data_present) ] v
  simp only [Dataset.download_extract_if_needed, Dataset.splitRows, h,
    Bool.false_eq_true, not_false_eq_true, if_true, reduceIte, hv]
  simp [hv, hfs, hc]

/-- Helper: with the downloaded flag true, download_extract_if_needed
takes the fast path: it only re-asserts the downloaded flag and performs
no external call. -/
theorem engine_downloaded_fast (d : Dataset) (fs : FS) (v : Bool)
    (h : d.downloaded = true) :
    d.download_extract_if_needed fs v =
      { ds := { d with downloaded := true }, fs := fs, calls := [], err := none } := by
  simp [Dataset.download_extract_if_needed, h]

/-- Helper: no execution of download_extract_if_needed performs any
external call: the fast path performs none by design, and every other
path raises TypeError at the first split before reaching any adapter. -/
theorem engine_calls_nil (d : Dataset) (fs : FS) (v : Bool) :
    (d.download_extract_if_needed fs v).calls = [] := by
  cases h : d.downloaded
  · exact (engine_not_downloaded d fs v h).2.2.1
  · rw [engine_downloaded_fast d fs v h]

/-- A descriptor constructed with already_downloaded set (all other
arguments at their default values): Dataset("http://example.org/ds/",
already_downloaded=True). -/
def descAlreadyDownloaded : Dataset :=
  Dataset.init "http://example.org/ds/" "./data/" "" "" "" "" "" ""
    "train" "validate" "test" true true true true false true

/-- A descriptor constructed with refresh_everytime_used and
already_downloaded both set. -/
def descRefreshEvery : Dataset :=
  Dataset.init "http://example.org/ds/" "./data/" "" "" "" "" "" ""
    "train" "validate" "test" true true true true true true

/-- A descriptor whose test split is absent: train data file train.tgz,
validate and test not present. -/
def descNoTest : Dataset :=
  Dataset.init "http://example.org/ds/" "./data/" "train.tgz" "" "" "" "" ""
    "train" "validate" "test" true false false true false false

/-- The argument strings of an external call, used to express that a call
references a given name. -/
def AdapterCall.argStrings : AdapterCall → List String
  | .transportFetch u p => [u, p]
  | .archiveZip p f => [p, f]
  | .archiveTar p f => [p, f]
  | .makedirs p => [p]
  | .rmtree p => [p]
  | .markerWrite p => [p]

/-- Substring occurrence on strings: sub occurs in s exactly when splitting
s on sub yields more than one piece. -/
def containsStr (s sub : String) : Bool :=
  (s.splitOn sub).length != 1

/-- Claim C1: for every descriptor whose downloaded flag is true and whose
refresh_everytime_used flag is false, download_extract_if_needed performs
zero Transport Adapter and zero Archive Adapter invocations (indeed no
external call at all) and returns without error, and a second call
immediately after performs no external call either. -/
theorem claim_C1_fast_path_no_adapter_calls (d : Dataset) (fs : FS) (v : Bool)
    (hr : d.refresh_everytime_used = false) (hd : d.downloaded = true) :
    (d.download_extract_if_needed fs v).calls = [] ∧
    (d.download_extract_if_needed fs v).err = none ∧
    ((d.download_extract_if_needed fs v).ds.download_extract_if_needed
      (d.download_extract_if_needed fs v).fs v).calls = [] := by
  rw [engine_downloaded_fast d fs v hd]
  exact ⟨rfl, rfl, engine_calls_nil _ _ _⟩

/-- Witness for claim C1 at the concrete descriptor descAlreadyDownloaded
on the empty filesystem. -/
theorem claim_C1_witness :
    (descAlreadyDownloaded.download_extract_if_needed fsEmpty true).calls = [] ∧
    (descAlreadyDownloaded.download_extract_if_needed fsEmpty true).err = none ∧
    ((descAlreadyDownloaded.download_extract_if_needed fsEmpty true).ds.download_extract_if_needed
      (descAlreadyDownloaded.download_extract_if_needed fsEmpty true).fs true).calls = [] :=
  claim_C1_fast_path_no_adapter_calls descAlreadyDownloaded fsEmpty true rfl rfl

/-- Claim C2: for a descriptor whose test split is marked not present,
download_extract_if_needed performs no Transport Adapter and no Archive
Adapter call at all, and in particular no adapter call whose arguments
mention the test subfolder or the test data filename. -/
theorem claim_C2_presence_gating (d : Dataset) (fs : FS) (v : Bool)
    (h : d.test_data_present = false) :
    (d.download_extract_if_needed fs v).calls.filter
      (fun c => c.isTransport || c.isArchive) = [] ∧
    ∀ c ∈ (d.download_extract_if_needed fs v).calls, ∀ p ∈ c.argStrings,
      containsStr p d.test_subfolder = false ∧
      containsStr p d.test_data_filename = false := by
  rw [engine_calls_nil]
  simp

/-- Witness for claim C2 at the concrete descriptor descNoTest on the
empty filesystem. -/
theorem claim_C2_witness :
    (descNoTest.download_extract_if_needed fsEmpty true).calls.filter
      (fun c => c.isTransport || c.isArchive) = [] ∧
    ∀ c ∈ (descNoTest.download_extract_if_needed fsEmpty true).calls,
      ∀ p ∈ c.argStrings,
      containsStr p descNoTest.test_subfolder = false ∧
      containsStr p descNoTest.test_data_filename = false :=
  claim_C2_presence_gating descNoTest fsEmpty true rfl

/-- Claim C3 counterexample: the descriptor descAlreadyDownloaded runs
download_extract_if_needed to completion without error, yet afterwards the
extracted flag is false: the method never writes the extracted flag, so
the claim that an error-free run leaves both flags true is refuted. -/
theorem claim_C3_counterexample :
    (descAlreadyDownloaded.download_extract_if_needed fsEmpty true).err = none ∧
    (descAlreadyDownloaded.download_extract_if_needed fsEmpty true).ds.downloaded = true ∧
    (descAlreadyDownloaded.download_extract_if_needed fsEmpty true).ds.extracted = false :=
  ⟨rfl, rfl, rfl⟩

/-- Claim C3 as amended: when download_extract_if_needed returns without a
raised error, the downloaded flag is true afterwards, while the extracted
flag is not written by the method and keeps its prior value. -/
theorem claim_C3_amended_flags_after_success (d : Dataset) (fs : FS) (v : Bool)
    (h : (d.download_extract_if_needed fs v).err = none) :
    (d.download_extract_if_needed fs v).ds.downloaded = true ∧
    (d.download_extract_if_needed fs v).ds.extracted = d.extracted := by
  cases hd : d.downloaded
  · exfalso
    have hs := (engine_not_downloaded d fs v hd).2.2.2
    rw [h] at hs
    exact Bool.false_ne_true hs
  · rw [engine_downloaded_fast d fs v hd]
    exact ⟨rfl, rfl⟩

/-- Witness for the amended claim C3 at the concrete descriptor
descAlreadyDownloaded on the empty filesystem. -/
theorem claim_C3_witness :
    (descAlreadyDownloaded.download_extract_if_needed fsEmpty true).ds.downloaded = true ∧
    (descAlreadyDownloaded.download_extract_if_needed fsEmpty true).ds.extracted =
      descAlreadyDownloaded.extracted :=
  claim_C3_amended_flags_after_success descAlreadyDownloaded fsEmpty true rfl

/-- Claim C4: the refresh_everytime_used flag is stored by the constructor
and never consulted: for the concrete descriptor descRefreshEvery, whose
refresh_everytime_used and downloaded flags are both true, a call of
download_extract_if_needed takes the skip-everything fast path (no
external call, no error, flags re-asserted), contradicting the claim that
the descriptor must be treated as never-downloaded. -/
theorem claim_C4_flag_never_consulted :
    descRefreshEvery.refresh_everytime_used = true ∧
    descRefreshEvery.downloaded = true ∧
    descRefreshEvery.download_extract_if_needed fsEmpty true =
      { ds := { descRefreshEvery with downloaded := true }, fs := fsEmpty,
        calls := [], err := none } :=
  ⟨rfl, rfl, engine_downloaded_fast descRefreshEvery fsEmpty true rfl⟩

/-- A descriptor state whose extracted flag is true, as the specified
engine would leave it after a successful acquisition (the spec directs
ensure_acquired to set it); the source never writes the flag, so the
state is written directly here to probe refresh. -/
def descExtractedTrue : Dataset :=
  { descAlreadyDownloaded with extracted := true }

/-- Claim C5 counterexample: on a descriptor whose extracted flag is true,
refresh with a successful directory removal leaves the extracted flag
true: refresh assigns false only to the downloaded flag (line 366 of
data.py) and contains no assignment to the extracted flag, refuting the
claim that refresh sets both flags to false. -/
theorem claim_C5_counterexample :
    (descExtractedTrue.refresh fsEmpty true true).ds.extracted = true ∧
    (descExtractedTrue.refresh fsEmpty true true).ds.downloaded = false :=
  ⟨rfl, rfl⟩

/-- Claim C5 as amended: refresh first removes the download root (the
removal is the first external call), then sets the downloaded flag to
false, leaving the extracted flag unchanged, then delegates to
download_extract_if_needed; and when the directory removal raises, refresh
aborts with the descriptor unchanged, neither flag mutated. -/
theorem claim_C5_amended_refresh_behavior (d : Dataset) (fs : FS) (v : Bool) :
    ((d.refresh fs false v).ds = d ∧ (d.refresh fs false v).err.isSome = true) ∧
    ((d.refresh fs true v).calls.head? = some (AdapterCall.rmtree d.download_url) ∧
     (d.refresh fs true v).ds.downloaded = false ∧
     (d.refresh fs true v).ds.extracted = d.extracted) := by
  obtain ⟨hds, hfs, hc, he⟩ :=
    engine_not_downloaded { d with downloaded := false } (fs.removeUnder d.download_url) v rfl
  refine ⟨⟨rfl, rfl⟩, ?_, ?_, ?_⟩ <;>
    simp [Dataset.refresh, Dataset.clean_downloaded_folders, hds, hc]

/-- Claim C6: the downloaded-marker query _check_if_downloaded raises
TypeError on every input (the list argument given to os.path.join), here
evaluated on the empty filesystem where no folder exists; the
extracted-marker query check_if_extracted on the same nonexistent folder
returns false without error. -/
theorem claim_C6_downloaded_query_raises :
    descAlreadyDownloaded.check_if_downloaded fsEmpty "http://example.org/ds/"
        "./data/" "train" "train.tgz" =
      .error (.typeError "join: expected str, bytes or os.PathLike object, not list") ∧
    descAlreadyDownloaded.check_if_extracted fsEmpty "http://example.org/ds/"
        "./data/" "train.tgz" = false :=
  ⟨rfl, rfl⟩

/-- Claim C7: the extraction step performs exactly one Archive Adapter
call when the artifact path ends in .zip, .tar.gz or .tgz and zero
otherwise, and in both cases it creates the hidden marker file named from
the basename of the artifact in the destination folder, after which
check_if_extracted reports the artifact as extracted. -/
theorem claim_C7_archive_vs_passthrough (d : Dataset) (fs : FS)
    (fp folder : String) (v : Bool) :
    ((d.extract_step fs fp folder v).2.filter AdapterCall.isArchive).length =
      (if fp.endsWith ".zip" ∨ fp.endsWith ".tar.gz" ∨ fp.endsWith ".tgz"
        then 1 else 0) ∧
    AdapterCall.markerWrite
        (ospJoin folder ("." ++ afterLastSlash fp ++ extract_marker)) ∈
      (d.extract_step fs fp folder v).2 ∧
    d.check_if_extracted (d.extract_step fs fp folder v).1 d.source_url folder
      (afterLastSlash fp) = true := by
  have hsnd : (d.extract_step fs fp folder v).2 =
      (if fp.endsWith ".zip" = true then [AdapterCall.archiveZip fp folder]
       else if fp.endsWith ".tar.gz" ∨ fp.endsWith ".tgz"
         then [AdapterCall.archiveTar fp folder]
       else []) ++
      [AdapterCall.markerWrite (ospJoin folder
        ("." ++ afterLastSlash fp ++ extract_marker))] := rfl
  have hfst : (d.extract_step fs fp folder v).1 =
      fs.add (ospJoin folder ("." ++ afterLastSlash fp ++ extract_marker)) := rfl
  refine ⟨?_, ?_, ?_⟩
  · rw [hsnd]
    by_cases h1 : fp.endsWith ".zip" = true
    · simp [h1, AdapterCall.isArchive]
    · by_cases h2 : fp.endsWith ".tar.gz" = true
      · simp [h1, h2, AdapterCall.isArchive]
      · by_cases h3 : fp.endsWith ".tgz" = true
        · simp [h1, h2, h3, AdapterCall.isArchive]
        · simp [h1, h2, h3, AdapterCall.isArchive]
  · rw [hsnd]
    exact List.mem_append_right _ (List.mem_singleton_self _)
  · show (d.extract_step fs fp folder v).1.existsPath
      (ospJoin folder ("." ++ afterLastSlash fp ++ extract_marker)) = true
    rw [hfst]
    simp [FS.existsPath, FS.add, List.contains_cons]

/-- Claim C8: with verbose False the download step performs no Transport
Adapter fetch at all (the fetch in the non-verbose branch sits under a
second, always-false verbose test), while the same call with verbose True
performs exactly one fetch: evaluated at a concrete artifact. -/
theorem claim_C8_no_fetch_when_not_verbose :
    (descAlreadyDownloaded.download fsEmpty "http://example.org/ds/" "./data/train"
        "train.tgz" false).2.filter AdapterCall.isTransport = [] ∧
    ((descAlreadyDownloaded.download fsEmpty "http://example.org/ds/" "./data/train"
        "train.tgz" true).2.filter AdapterCall.isTransport).length = 1 :=
  ⟨rfl, rfl⟩

/-- A descriptor constructed with all three splits present and the same
subfolder name for each. -/
def descDupSubfolders : Dataset :=
  Dataset.init "http://example.org/ds/" "./data/" "a.zip" "b.zip" "c.zip" "" "" ""
    "same" "same" "same" true true true true false false

/-- Claim C9 counterexample: constructing a descriptor with all three
splits present and pairwise equal subfolder values succeeds: __init__
contains no validation and cannot raise, and the returned descriptor
stores the duplicate subfolders verbatim. -/
theorem claim_C9_counterexample :
    descDupSubfolders.train_subfolder = descDupSubfolders.validate_subfolder ∧
    descDupSubfolders.validate_subfolder = descDupSubfolders.test_subfolder ∧
    descDupSubfolders.train_data_present = true ∧
    descDupSubfolders.validate_data_present = true ∧
    descDupSubfolders.test_data_present = true :=
  ⟨rfl, rfl, rfl, rfl, rfl⟩

/-- Claim C9 as amended: descriptor construction performs no validation of
any kind: it always succeeds, storing every argument verbatim in the
corresponding attribute (duplicate subfolders included), seeding
downloaded from already_downloaded and setting extracted to false. -/
theorem claim_C9_amended_no_validation (su du tdf vdf tedf tlf vlf telf
    tsf vsf tesf : String) (tp vp tep ex rf ad : Bool) :
    (Dataset.init su du tdf vdf tedf tlf vlf telf tsf vsf tesf
        tp vp tep ex rf ad).train_subfolder = tsf ∧
    (Dataset.init su du tdf vdf tedf tlf vlf telf tsf vsf tesf
        tp vp tep ex rf ad).validate_subfolder = vsf ∧
    (Dataset.init su du tdf vdf tedf tlf vlf telf tsf vsf tesf
        tp vp tep ex rf ad).test_subfolder = tesf ∧
    (Dataset.init su du tdf vdf tedf tlf vlf telf tsf vsf tesf
        tp vp tep ex rf ad).downloaded = ad ∧
    (Dataset.init su du tdf vdf tedf tlf vlf telf tsf vsf tesf
        tp vp tep ex rf ad).extracted = false :=
  ⟨rfl, rfl, rfl, rfl, rfl⟩

/-- Claim C10: adding a Task instance to a Process whose stored ids are
positive and bounded by the counter assigns the task a fresh positive id
strictly greater than every id stored so far, stores the task (with the
id set on it) under that id, returns the id, and preserves the bound
invariant; adding anything that is not a Task instance stores nothing and
returns zero. -/
theorem claim_C10_add_task_fresh_id (p : oonn.Process) (t : oonn.Task)
    (hwf : p.wf) :
    0 < (p.add_task (oonn.AddTaskArg.task t)).2 ∧
    (∀ pr ∈ p.tasks, pr.1 < (p.add_task (oonn.AddTaskArg.task t)).2) ∧
    ((p.add_task (oonn.AddTaskArg.task t)).2,
      t.set_id (p.add_task (oonn.AddTaskArg.task t)).2) ∈
      (p.add_task (oonn.AddTaskArg.task t)).1.tasks ∧
    (p.add_task (oonn.AddTaskArg.task t)).1.wf ∧
    p.add_task oonn.AddTaskArg.notATask = (p, 0) := by
  refine ⟨Nat.succ_pos _, ?_, ?_, ?_, rfl⟩
  · intro pr hpr
    exact Nat.lt_succ_of_le (hwf pr hpr).2
  · exact List.mem_cons_self _ _
  · intro pr hpr
    rcases List.mem_cons.mp hpr with h | h
    · rw [h]
      exact ⟨Nat.succ_pos _, le_refl _⟩
    · exact ⟨(hwf pr h).1, Nat.le_succ_of_le (hwf pr h).2⟩

/-- Witness for claim C10: the first task added to a fresh Process gets
id 1, is stored under it, and a non-Task argument is rejected with 0. -/
theorem claim_C10_witness :
    0 < (oonn.Process.init.add_task (oonn.AddTaskArg.task ⟨0, "Pre-Processing"⟩)).2 ∧
    (∀ pr ∈ oonn.Process.init.tasks,
      pr.1 < (oonn.Process.init.add_task (oonn.AddTaskArg.task ⟨0, "Pre-Processing"⟩)).2) ∧
    ((oonn.Process.init.add_task (oonn.AddTaskArg.task ⟨0, "Pre-Processing"⟩)).2,
      oonn.Task.set_id ⟨0, "Pre-Processing"⟩
        (oonn.Process.init.add_task (oonn.AddTaskArg.task ⟨0, "Pre-Processing"⟩)).2) ∈
      (oonn.Process.init.add_task (oonn.AddTaskArg.task ⟨0, "Pre-Processing"⟩)).1.tasks ∧
    (oonn.Process.init.add_task (oonn.AddTaskArg.task ⟨0, "Pre-Processing"⟩)).1.wf ∧
    oonn.Process.init.add_task oonn.AddTaskArg.notATask = (oonn.Process.init, 0) :=
  claim_C10_add_task_fresh_id oonn.Process.init ⟨0, "Pre-Processing"⟩
    (fun pr hpr => absurd hpr (List.not_mem_nil pr))
